import Mathlib

/-!
Shallow embedding of the period-keyed decision/state persistence core of the
captop repository (src/main1.py, src/db.py, src/Interfaces/*.py).

JSON payload values are modelled by `Captop.JVal` (Python numbers as `ℚ`,
strings, `None`, and nested objects as association lists).  The SQLite tables
`decision` (PRIMARY KEY (company_id, period)) and `financial_statement`
(PRIMARY KEY (company_id, period, type)) are modelled as finite-key maps,
i.e. functions to `Option`; `REPLACE INTO` with the full primary key is a
pointwise update.  `json.dumps` followed by `json.loads` is the identity on
the well-formed dictionaries every writer stores, so payloads are kept as
structured values rather than strings.
-/

namespace Captop

/-- Values appearing in stored JSON payloads: Python floats (modelled exactly
as rationals, since the persistence core does no float arithmetic), strings,
Python `None` (JSON null), and nested objects as ordered association lists. -/
inductive JVal where
  | num (q : ℚ)
  | str (s : String)
  | null
  | obj (fields : List (String × JVal))

/-- A JSON object / Python dict with string keys, in insertion order. -/
abbrev Obj := List (String × JVal)

/-- Lookup of a key in a Python dict (`d.get(k)` / `k in d`): first match. -/
def lookupKey (o : Obj) (k : String) : Option JVal :=
  match o with
  | [] => none
  | (k', v) :: rest => if k' = k then some v else lookupKey rest k

/-- Python dict assignment `d[k] = v`: replaces the value in place if the key
is present, otherwise appends at the end (insertion order semantics). -/
def setKey (o : Obj) (k : String) (v : JVal) : Obj :=
  match o with
  | [] => [(k, v)]
  | (k', v') :: rest => if k' = k then (k, v) :: rest else (k', v') :: setKey rest k v

/-- Characters Python's `str.isspace` recognises in the ASCII range. -/
def pyIsSpace (c : Char) : Bool :=
  c = ' ' || c = '\t' || c = '\n' || c = '\r' || c = Char.ofNat 11 || c = Char.ofNat 12

/-- Python's `str.isalnum`, restricted to the ASCII letters and digits that
company names use. -/
def pyIsAlnum (c : Char) : Bool := c.isAlphanum

/-- Python's `str.strip()`: drop leading and trailing whitespace. -/
def pyStrip (s : String) : String :=
  String.mk (((s.data.dropWhile pyIsSpace).reverse.dropWhile pyIsSpace).reverse)

/-- Value of a list of decimal digit characters. -/
def digitsToNat (ds : List Char) : Nat :=
  ds.foldl (fun a c => a * 10 + (c.toNat - 48)) 0

/-- Parse an unsigned decimal literal (digits with at most one decimal point,
at least one digit overall), the forms `float()` accepts for the values this
application stores.  Exponent, `inf` and `nan` forms never occur here. -/
def parseUnsigned (cs : List Char) : Option ℚ :=
  let intPart := cs.takeWhile Char.isDigit
  let rest := cs.dropWhile Char.isDigit
  match rest with
  | [] => if intPart.isEmpty then none else some (digitsToNat intPart : ℚ)
  | '.' :: frac =>
    if frac.all Char.isDigit && !(intPart.isEmpty && frac.isEmpty) then
      let den : Nat := Nat.pow 10 frac.length
      let num : Nat := digitsToNat intPart * den + digitsToNat frac
      some (mkRat num den)
    else none
  | _ => none

/-- Python `float(s)` on a string: strip whitespace, optional sign, decimal
literal; `none` models the `ValueError` raised on non-parsing input. -/
def pyFloatString (s : String) : Option ℚ :=
  match (pyStrip s).data with
  | '-' :: rest => (parseUnsigned rest).map (fun q => -q)
  | '+' :: rest => parseUnsigned rest
  | cs => parseUnsigned cs

/-- Python `s.replace(c, d)` for single characters. -/
def replaceChar (s : String) (c d : Char) : String :=
  String.mk (s.data.map (fun x => if x = c then d else x))

/-- Python `s.replace(c, "")` for a single character. -/
def removeChar (s : String) (c : Char) : String :=
  String.mk (s.data.filter (fun x => x ≠ c))

/-- Database state: the `decision` table keyed by (company_id, period) and the
`financial_statement` table keyed by (company_id, period, type).  Every row
payload is a JSON object; `REPLACE INTO` with the full primary key updates
exactly that key. -/
structure DB where
  decision : Nat → Nat → Option Obj
  statement : Nat → Nat → String → Option Obj

/-- Database with no rows, as produced by a fresh schema init. -/
def emptyDB : DB := ⟨fun _ _ => none, fun _ _ _ => none⟩

/-- Effect of `REPLACE INTO decision (company_id, period, payload)` on the
modelled state. -/
def updateDecision (db : DB) (cid pid : Nat) (payload : Obj) : DB :=
  { db with decision := fun c p => if c = cid ∧ p = pid then some payload else db.decision c p }

/-- Effect of `REPLACE INTO financial_statement (company_id, period, type,
data)`, the pattern shared by every financial-statement writer
(balancefinal.py, controlsistema.py, ventasporpais.py, modelohome.py, ...). -/
def saveStatement (db : DB) (cid pid : Nat) (ty : String) (data : Obj) : DB :=
  { db with statement := fun c p t =>
      if c = cid ∧ p = pid ∧ t = ty then some data else db.statement c p t }

/-- Shared `SELECT data FROM financial_statement WHERE ...` load pattern. -/
def loadStatement (db : DB) (cid pid : Nat) (ty : String) : Option Obj :=
  db.statement cid pid ty

/-- Named section of the decision document at (cid, pid), if the document and
the section both exist; used to state frame properties. -/
def sectionOf (db : DB) (cid pid : Nat) (name : String) : Option JVal :=
  match db.decision cid pid with
  | none => none
  | some payload => lookupKey payload name

end Captop

namespace Caja

open Captop

/-- CashFlowModel.save_cash_flow (src/Interfaces/caja.py lines 66-93): loads
the existing payload for (company_id, period) if a row exists, sets only
`payload["cash_flow_data"] = data`, and REPLACEs the full document. -/
def save_cash_flow (db : DB) (company_id period : Nat) (data : Obj) : DB :=
  let existing_payload := (db.decision company_id period).getD []
  updateDecision db company_id period (setKey existing_payload "cash_flow_data" (.obj data))

/-- CashFlowModel.load_cash_flow (caja.py lines 95-111): returns
`payload.get("cash_flow_data", {})` when the row exists, `None` otherwise. -/
def load_cash_flow (db : DB) (company_id period : Nat) : Option JVal :=
  match db.decision company_id period with
  | some payload => some ((lookupKey payload "cash_flow_data").getD (.obj []))
  | none => none

/-- Python `float(x)` applied to a stored JSON value; `none` models the
`ValueError`/`TypeError` paths. -/
def pyFloatVal (v : JVal) : Option ℚ :=
  match v with
  | .num q => some q
  | .str s => pyFloatString s
  | .null => none
  | .obj _ => none

/-- CashFlowModel.get_initial_balance (caja.py lines 113-133): reads the
BALANCE_SHEET statement for (company_id, period) and returns
`float(data.get("activo_circulante_Disponible", 0.0))`, with every missing or
non-convertible case resolving to 0.0. -/
def get_initial_balance (db : DB) (company_id period : Nat) : ℚ :=
  match db.statement company_id period "BALANCE_SHEET" with
  | none => 0
  | some balance_data =>
    match lookupKey balance_data "activo_circulante_Disponible" with
    | none => 0
    | some v => (pyFloatVal v).getD 0

/-- Coercion CashFlowUI.save_cash_flow (caja.py lines 452-457) applies to each
entry field: `float(var.get() or 0.0)`, keeping the raw string on
`ValueError`. -/
def coerceEntryValue (s : String) : JVal :=
  if s = "" then .num 0
  else match pyFloatString s with
       | some q => .num q
       | none => .str s

/-- Coercion caja.py lines 460-464 applies to each calculated field:
`float(var.get().replace(',', '') or 0.0)`, keeping the raw string on
`ValueError`. -/
def coerceCalculatedValue (s : String) : JVal :=
  let t := removeChar s ','
  if t = "" then .num 0
  else match pyFloatString t with
       | some q => .num q
       | none => .str s

/-- CashFlowUI.save_cash_flow (caja.py lines 447-467): collect the entry and
calculated fields into one dict with the two coercions, then call the model
save. -/
def ui_save_cash_flow (db : DB) (company_id period : Nat)
    (entry_vars calculated_vars : List (String × String)) : DB :=
  let d1 := entry_vars.foldl (fun acc kv => setKey acc kv.1 (coerceEntryValue kv.2)) []
  let d2 := calculated_vars.foldl (fun acc kv => setKey acc kv.1 (coerceCalculatedValue kv.2)) d1
  save_cash_flow db company_id period d2

end Caja

namespace Datosperiodoanterior

open Captop

/-- PreviousPeriodModel.save_previous_period_data (datosperiodoanterior.py
lines 64-92): loads the existing payload (or starts from the empty dict),
sets only `payload["previous_period_data"] = data`, and writes the full
document back. -/
def save_previous_period_data (db : DB) (company_id period : Nat) (data : Obj) : DB :=
  let full_payload := (db.decision company_id period).getD []
  updateDecision db company_id period (setKey full_payload "previous_period_data" (.obj data))

/-- PreviousPeriodModel.load_previous_period_data (datosperiodoanterior.py
lines 94-110): returns `payload.get("previous_period_data")` (no default)
when the row exists, `None` otherwise. -/
def load_previous_period_data (db : DB) (company_id period : Nat) : Option (Option JVal) :=
  match db.decision company_id period with
  | some payload => some (lookupKey payload "previous_period_data")
  | none => none

/-- PreviousPeriodDataUI._get_numeric_value (datosperiodoanterior.py lines
288-296): empty string gives `None`; otherwise commas become dots and the
result of `float` is returned, `None` on `ValueError`. -/
def get_numeric_value (value_str : String) : Option ℚ :=
  if value_str = "" then none
  else pyFloatString (replaceChar value_str ',' '.')

/-- PreviousPeriodDataUI.save_data (datosperiodoanterior.py lines 311-319):
each raw entry string is stored as the result of `_get_numeric_value`, i.e. a
number when it parses and Python `None` (JSON null) when it does not. -/
def ui_save_data (db : DB) (company_id period : Nat)
    (entry_vars : List (String × String)) : DB :=
  let previous_period_data := entry_vars.foldl
    (fun acc kv => setKey acc kv.1 (match get_numeric_value kv.2 with
                                    | some q => .num q
                                    | none => .null)) []
  save_previous_period_data db company_id period previous_period_data

end Datosperiodoanterior

namespace Resumenjuego

open Captop

/-- CompanySummaryUI.save_decisions (resumenjuego1.py lines 186-223): loads
the existing payload for (company_id, period) if present, sets only
`payload["summary_data"] = summary_data` and writes the full document back.
The caller has already coerced every field with `_get_numeric_value`. -/
def save_decisions (db : DB) (company_id period : Nat) (summary_data : Obj) : DB :=
  let full_payload := (db.decision company_id period).getD []
  updateDecision db company_id period (setKey full_payload "summary_data" (.obj summary_data))

/-- CompanySummaryUI._clean_key (resumenjuego1.py): spaces and hyphens become
underscores, parentheses are removed. -/
def clean_key (text : String) : String :=
  String.mk ((text.data.filter (fun c => c ≠ '(' && c ≠ ')')).map
    (fun c => if c = ' ' || c = '-' then '_' else c))

end Resumenjuego

namespace Ventaproyectada

open Captop

/-- ProjectedSalesUI.save_decisions_to_db (ventaproyectada.py lines 196-230):
loads the existing payload if present, sets only
`payload["projected_sales_data"] = projected_sales_data` and writes the full
document back. -/
def save_decisions_to_db (db : DB) (company_id period : Nat) (projected_sales_data : Obj) : DB :=
  let full_payload := (db.decision company_id period).getD []
  updateDecision db company_id period
    (setKey full_payload "projected_sales_data" (.obj projected_sales_data))

/-- ProjectedSalesUI._clean_key (ventaproyectada.py): spaces and hyphens
become underscores, parentheses are removed. -/
def clean_key (text : String) : String :=
  String.mk ((text.data.filter (fun c => c ≠ '(' && c ≠ ')')).map
    (fun c => if c = ' ' || c = '-' then '_' else c))

/-- ProjectedSalesUI._get_numeric_value (ventaproyectada.py): identical to the
helper in datosperiodoanterior.py. -/
def get_numeric_value (value_str : String) : Option ℚ :=
  if value_str = "" then none
  else pyFloatString (replaceChar value_str ',' '.')

/-- Value `payload.get("summary_data", {})` yields for the stock lookup; the
writers of `summary_data` always store a JSON object, so a non-object section
never occurs in reachable states. -/
def get_summary_section (payload : Obj) : Obj :=
  match lookupKey payload "summary_data" with
  | some (.obj o) => o
  | _ => []

/-- Resolution of one `stock_anterior_values[db_key]` entry performed by
ProjectedSalesUI.load_decisions_from_db (ventaproyectada.py lines 231-262):
the row for the CURRENT period (company_id, current_period) is read, its
`summary_data` section is taken with default `{}`, and the field `db_key` is
resolved; an absent row, absent field or stored `None` gives 0.0, a stored
number q gives q back (Python `float(str(q))` is the identity on floats), and
a stored string is re-parsed with `_get_numeric_value` (which yields Python
`None`, modelled as `none`, when it does not parse). -/
def resolve_stock_anterior (db : DB) (company_id current_period : Nat)
    (db_key : String) : Option ℚ :=
  match db.decision company_id current_period with
  | none => some 0
  | some payload =>
    match lookupKey (get_summary_section payload) db_key with
    | none => some 0
    | some .null => some 0
    | some (.num q) => some q
    | some (.str s) => get_numeric_value s
    | some (.obj _) => none

end Ventaproyectada

namespace Prestamo

open Captop

/-- DatabaseManager.save_decision (prestamo.py lines 51-64): blind
`REPLACE INTO decision` of the payload handed in by the caller. -/
def save_decision (db : DB) (company_id period : Nat) (payload : Obj) : DB :=
  updateDecision db company_id period payload

/-- DatabaseManager.load_decision (prestamo.py lines 66-75). -/
def load_decision (db : DB) (company_id period : Nat) : Option Obj :=
  db.decision company_id period

/-- LoanDecisionsUI._save_data (prestamo.py lines 281-293): loads the
existing document (or `{}`), sets only `existing["loan_decisions"]` and saves
the merged document. -/
def ui_save_data (db : DB) (company_id period : Nat) (loan_decisions_data : Obj) : DB :=
  let existing_data := (load_decision db company_id period).getD []
  save_decision db company_id period (setKey existing_data "loan_decisions" (.obj loan_decisions_data))

end Prestamo

namespace Publicidad

open Captop

/-- DatabaseManager.save_decision (publicidad.py lines 46-58): blind
`REPLACE INTO decision` of the payload handed in by the caller. -/
def save_decision (db : DB) (company_id period : Nat) (payload : Obj) : DB :=
  updateDecision db company_id period payload

/-- AdvertisingUI._save_data (publicidad.py lines 250-253): loads the existing
document (or `{}`), sets only `existing["advertising_decisions"]` and saves
the merged document. -/
def ui_save_data (db : DB) (company_id period : Nat) (advertising_data : Obj) : DB :=
  let existing_data := (db.decision company_id period).getD []
  save_decision db company_id period
    (setKey existing_data "advertising_decisions" (.obj advertising_data))

end Publicidad

namespace Investigacionmercado

open Captop

/-- DatabaseManager.save_decision (investigacionmercado.py lines 47-58):
blind `REPLACE INTO decision` of the payload handed in by the caller. -/
def save_decision (db : DB) (company_id period : Nat) (payload : Obj) : DB :=
  updateDecision db company_id period payload

/-- MarketResearchUI._save_data (investigacionmercado.py lines 306-317):
builds `data = {"market_research": fields}` WITHOUT loading the existing
document and saves it, replacing the whole decision document. -/
def ui_save_data (db : DB) (company_id period : Nat) (research_fields : Obj) : DB :=
  save_decision db company_id period [("market_research", .obj research_fields)]

end Investigacionmercado

namespace HomeProfessional

open Captop

/-- BusinessGameModel.save_decisions (homeprofessional.py lines 72-84): blind
`REPLACE INTO decision` of the form's flat data dict as the whole payload —
no section name and no merge with the existing document. -/
def save_decisions (db : DB) (company_id period : Nat) (data : Obj) : DB :=
  updateDecision db company_id period data

/-- BusinessGameModel.load_decisions (homeprofessional.py lines 86-94). -/
def load_decisions (db : DB) (company_id period : Nat) : Option Obj :=
  db.decision company_id period

end HomeProfessional

namespace Balancefinal

open Captop

/-- FinalBalanceModel.save_final_balance (balancefinal.py lines 69-82):
`REPLACE INTO financial_statement` with type "BALANCE_FINAL". -/
def save_final_balance (db : DB) (company_id period : Nat) (data : Obj) : DB :=
  saveStatement db company_id period "BALANCE_FINAL" data

/-- FinalBalanceModel.load_final_balance (balancefinal.py lines 84-97). -/
def load_final_balance (db : DB) (company_id period : Nat) : Option Obj :=
  loadStatement db company_id period "BALANCE_FINAL"

end Balancefinal

namespace Controlsistema

open Captop

/-- ControlSistemaModel.save_control_data (controlsistema.py lines 43-56):
`REPLACE INTO financial_statement` with type "CONTROL_SISTEMA". -/
def save_control_data (db : DB) (company_id period : Nat) (data : Obj) : DB :=
  saveStatement db company_id period "CONTROL_SISTEMA" data

/-- ControlSistemaModel.load_control_data (controlsistema.py lines 58-71). -/
def load_control_data (db : DB) (company_id period : Nat) : Option Obj :=
  loadStatement db company_id period "CONTROL_SISTEMA"

end Controlsistema

namespace Captop

/-- Row of the `company` table. -/
structure Company where
  id : Nat
  name : String
  cash_usd : ℚ
  current_period : Nat
  reporting_currency_exchange_rate : ℚ

/-- Company table together with the next AUTOINCREMENT id. -/
structure CompanyTable where
  rows : List Company
  next_id : Nat

/-- Company table of a fresh database. -/
def emptyCompanyTable : CompanyTable := ⟨[], 1⟩

/-- SELECT by id: first row whose id matches. -/
def findCompany (t : CompanyTable) (company_id : Nat) : Option Company :=
  t.rows.find? (fun r => r.id == company_id)

/-- Shorthand for the `current_period` of the company with the given id. -/
def currentPeriodOf (t : CompanyTable) (company_id : Nat) : Option Nat :=
  (findCompany t company_id).map (fun r => r.current_period)

end Captop

namespace Main1

open Captop

/-- Errors MainController.validate_company_name (main1.py lines 135-145) can
report. -/
inductive NameError where
  | empty
  | tooShort
  | tooLong
  | invalidChars
deriving DecidableEq

/-- Outcomes of the create-company flow (main1.py lines 82-99, 147-152). -/
inductive CreateResult where
  | ok (id : Nat)
  | duplicate
  | invalid (e : NameError)
deriving DecidableEq

/-- Whether the outcome is a validation error. -/
def CreateResult.isInvalid : CreateResult → Bool
  | .invalid _ => true
  | _ => false

/-- MainController.validate_company_name (main1.py lines 135-145): strips the
name, then rejects empty, shorter than 3, longer than 50, or any character
that is neither alphanumeric nor whitespace. -/
def validate_company_name (name : String) : Option NameError :=
  let n := pyStrip name
  if n.length = 0 then some .empty
  else if n.length < 3 then some .tooShort
  else if n.length > 50 then some .tooLong
  else if n.data.all (fun c => pyIsAlnum c || pyIsSpace c) then none
  else some .invalidChars

/-- CompanyModel.create_company (main1.py lines 82-99): INSERT of a row with
cash_usd 100000.0, current_period 0 and exchange rate 950.0; the UNIQUE
constraint on `name` raises IntegrityError when the name already exists. -/
def model_create_company (t : CompanyTable) (name : String) : CreateResult × CompanyTable :=
  if t.rows.any (fun r => r.name == name) then (.duplicate, t)
  else (.ok t.next_id,
        ⟨t.rows ++ [⟨t.next_id, name, 100000, 0, 950⟩], t.next_id + 1⟩)

/-- MainController.create_company (main1.py lines 147-152): validate first and
insert nothing on a validation error, otherwise insert the stripped name. -/
def create_company (t : CompanyTable) (name : String) : CreateResult × CompanyTable :=
  match validate_company_name name with
  | some e => (.invalid e, t)
  | none => model_create_company t (pyStrip name)

end Main1

namespace HomeProfessional

open Captop

/-- BusinessGameModel.create_company (homeprofessional.py lines 56-70): INSERT
of a row with cash_usd 1000000.0, current_period int(tr("initial_period")) = 0
and exchange rate 950.0; no name validation, IntegrityError on duplicate. -/
def create_company (t : CompanyTable) (name : String) : Bool × CompanyTable :=
  if t.rows.any (fun r => r.name == name) then (false, t)
  else (true, ⟨t.rows ++ [⟨t.next_id, name, 1000000, 0, 950⟩], t.next_id + 1⟩)

/-- BusinessGameModel.increment_period (homeprofessional.py lines 96-107):
`UPDATE company SET current_period = current_period + 1 WHERE id = ?`. -/
def increment_period (t : CompanyTable) (company_id : Nat) : CompanyTable :=
  ⟨t.rows.map (fun r => if r.id == company_id
                        then { r with current_period := r.current_period + 1 }
                        else r),
   t.next_id⟩

/-- BusinessGameModel.get_company_info (homeprofessional.py lines 49-54). -/
def get_company_info (t : CompanyTable) (company_id : Nat) : Option Company :=
  findCompany t company_id

end HomeProfessional

namespace Captop

/-- Whole application state: company table plus the two JSON stores. -/
structure AppState where
  companies : CompanyTable
  db : DB

/-- The core mutating operations of the persistence layer, one constructor per
source write path modelled above (pure loads change no state). -/
inductive CoreOp where
  | main_create_company (name : String)
  | hp_create_company (name : String)
  | hp_increment_period (company_id : Nat)
  | hp_save_decisions (company_id period : Nat) (data : Obj)
  | caja_save_cash_flow (company_id period : Nat) (data : Obj)
  | datos_save_previous (company_id period : Nat) (data : Obj)
  | resumen_save_decisions (company_id period : Nat) (data : Obj)
  | vp_save_projected (company_id period : Nat) (data : Obj)
  | prestamo_save (company_id period : Nat) (data : Obj)
  | publicidad_save (company_id period : Nat) (data : Obj)
  | mercado_save (company_id period : Nat) (data : Obj)
  | save_statement (company_id period : Nat) (ty : String) (data : Obj)

/-- Effect of one core operation on the application state. -/
def stepOp (s : AppState) (op : CoreOp) : AppState :=
  match op with
  | .main_create_company name => { s with companies := (Main1.create_company s.companies name).2 }
  | .hp_create_company name =>
      { s with companies := (HomeProfessional.create_company s.companies name).2 }
  | .hp_increment_period cid =>
      { s with companies := HomeProfessional.increment_period s.companies cid }
  | .hp_save_decisions cid pid data =>
      { s with db := HomeProfessional.save_decisions s.db cid pid data }
  | .caja_save_cash_flow cid pid data => { s with db := Caja.save_cash_flow s.db cid pid data }
  | .datos_save_previous cid pid data =>
      { s with db := Datosperiodoanterior.save_previous_period_data s.db cid pid data }
  | .resumen_save_decisions cid pid data =>
      { s with db := Resumenjuego.save_decisions s.db cid pid data }
  | .vp_save_projected cid pid data =>
      { s with db := Ventaproyectada.save_decisions_to_db s.db cid pid data }
  | .prestamo_save cid pid data => { s with db := Prestamo.ui_save_data s.db cid pid data }
  | .publicidad_save cid pid data => { s with db := Publicidad.ui_save_data s.db cid pid data }
  | .mercado_save cid pid data => { s with db := Investigacionmercado.ui_save_data s.db cid pid data }
  | .save_statement cid pid ty data => { s with db := saveStatement s.db cid pid ty data }

end Captop

namespace Captop

theorem lookupKey_setKey_self (o : Obj) (k : String) (v : JVal) :
    lookupKey (setKey o k v) k = some v := by
  induction o with
  | nil => simp [setKey, lookupKey]
  | cons hd tl ih =>
    obtain ⟨k', v'⟩ := hd
    by_cases h : k' = k
    · simp [setKey, lookupKey, h]
    · simp [setKey, lookupKey, h, ih]

theorem lookupKey_setKey_ne (o : Obj) (k k' : String) (v : JVal) (h : k' ≠ k) :
    lookupKey (setKey o k v) k' = lookupKey o k' := by
  induction o with
  | nil =>
    simp only [setKey, lookupKey]
    rw [if_neg (fun e => h e.symm)]
  | cons hd tl ih =>
    obtain ⟨k'', v'⟩ := hd
    by_cases h2 : k'' = k
    · subst h2
      simp only [setKey, if_pos rfl, lookupKey]
      rw [if_neg (fun e => h e.symm), if_neg (fun e => h e.symm)]
    · simp only [setKey, if_neg h2, lookupKey]
      by_cases h3 : k'' = k'
      · rw [if_pos h3, if_pos h3]
      · rw [if_neg h3, if_neg h3, ih]

theorem updateDecision_decision_same (db : DB) (cid pid : Nat) (payload : Obj) :
    (updateDecision db cid pid payload).decision cid pid = some payload := by
  simp [updateDecision]

theorem updateDecision_decision_other (db : DB) (cid pid c p : Nat) (payload : Obj)
    (h : ¬(c = cid ∧ p = pid)) :
    (updateDecision db cid pid payload).decision c p = db.decision c p := by
  simp only [updateDecision]
  rw [if_neg h]

theorem updateDecision_statement (db : DB) (cid pid : Nat) (payload : Obj) :
    (updateDecision db cid pid payload).statement = db.statement := rfl

theorem saveStatement_same (db : DB) (cid pid : Nat) (ty : String) (data : Obj) :
    (saveStatement db cid pid ty data).statement cid pid ty = some data := by
  simp [saveStatement]

theorem saveStatement_other (db : DB) (cid pid : Nat) (ty : String) (data : Obj)
    (c p : Nat) (t : String) (h : ¬(c = cid ∧ p = pid ∧ t = ty)) :
    (saveStatement db cid pid ty data).statement c p t = db.statement c p t := by
  simp only [saveStatement]
  rw [if_neg h]

theorem saveStatement_decision (db : DB) (cid pid : Nat) (ty : String) (data : Obj) :
    (saveStatement db cid pid ty data).decision = db.decision := rfl

/-- Shared shape of the six read-merge-write section writers: after the write,
the named section holds exactly the new data. -/
theorem sectionOf_mergeSave_self (db : DB) (cid pid : Nat) (name : String) (data : Obj) :
    sectionOf (updateDecision db cid pid
      (setKey ((db.decision cid pid).getD []) name (.obj data))) cid pid name
      = some (.obj data) := by
  simp [sectionOf, updateDecision_decision_same, lookupKey_setKey_self]

/-- Shared shape of the six read-merge-write section writers: every other
section of the same document is left exactly as it was (no sibling section is
dropped). -/
theorem sectionOf_mergeSave_frame (db : DB) (cid pid : Nat) (name : String) (data : Obj)
    (k : String) (hk : k ≠ name) :
    sectionOf (updateDecision db cid pid
      (setKey ((db.decision cid pid).getD []) name (.obj data))) cid pid k
      = sectionOf db cid pid k := by
  simp only [sectionOf, updateDecision_decision_same]
  rw [lookupKey_setKey_ne _ _ _ _ hk]
  cases h : db.decision cid pid with
  | none => simp [lookupKey]
  | some payload => simp

end Captop

open Captop in
/-- C1 (amended): The six section writers that read-merge-write — cash_flow_data
(caja.py), previous_period_data (datosperiodoanterior.py), summary_data
(resumenjuego1.py), projected_sales_data (ventaproyectada.py), loan_decisions
(prestamo.py) and advertising_decisions (publicidad.py) — load the existing
decision document for (company_id, period) if present, set only their own
section, and write the full document back, never dropping sibling sections;
in particular saving cash_flow_data then summary_data then reading
cash_flow_data returns it unchanged.  The market-research writer
(investigacionmercado.py) and the Products form writer (homeprofessional.py)
are exceptions: they replace the whole decision document with their own data,
dropping every sibling section. -/
theorem C1_section_isolation_amended :
    (∀ db cid pid data,
        sectionOf (Caja.save_cash_flow db cid pid data) cid pid "cash_flow_data"
          = some (.obj data) ∧
        ∀ k, k ≠ "cash_flow_data" →
          sectionOf (Caja.save_cash_flow db cid pid data) cid pid k = sectionOf db cid pid k) ∧
    (∀ db cid pid data,
        sectionOf (Datosperiodoanterior.save_previous_period_data db cid pid data) cid pid
            "previous_period_data" = some (.obj data) ∧
        ∀ k, k ≠ "previous_period_data" →
          sectionOf (Datosperiodoanterior.save_previous_period_data db cid pid data) cid pid k
            = sectionOf db cid pid k) ∧
    (∀ db cid pid data,
        sectionOf (Resumenjuego.save_decisions db cid pid data) cid pid "summary_data"
          = some (.obj data) ∧
        ∀ k, k ≠ "summary_data" →
          sectionOf (Resumenjuego.save_decisions db cid pid data) cid pid k
            = sectionOf db cid pid k) ∧
    (∀ db cid pid data,
        sectionOf (Ventaproyectada.save_decisions_to_db db cid pid data) cid pid
            "projected_sales_data" = some (.obj data) ∧
        ∀ k, k ≠ "projected_sales_data" →
          sectionOf (Ventaproyectada.save_decisions_to_db db cid pid data) cid pid k
            = sectionOf db cid pid k) ∧
    (∀ db cid pid data,
        sectionOf (Prestamo.ui_save_data db cid pid data) cid pid "loan_decisions"
          = some (.obj data) ∧
        ∀ k, k ≠ "loan_decisions" →
          sectionOf (Prestamo.ui_save_data db cid pid data) cid pid k = sectionOf db cid pid k) ∧
    (∀ db cid pid data,
        sectionOf (Publicidad.ui_save_data db cid pid data) cid pid "advertising_decisions"
          = some (.obj data) ∧
        ∀ k, k ≠ "advertising_decisions" →
          sectionOf (Publicidad.ui_save_data db cid pid data) cid pid k = sectionOf db cid pid k) ∧
    (∀ db cid pid A B,
        Caja.load_cash_flow
            (Resumenjuego.save_decisions (Caja.save_cash_flow db cid pid A) cid pid B) cid pid
          = some (.obj A)) ∧
    (∀ db cid pid fields,
        (Investigacionmercado.ui_save_data db cid pid fields).decision cid pid
          = some [("market_research", .obj fields)]) ∧
    (∀ db cid pid data,
        (HomeProfessional.save_decisions db cid pid data).decision cid pid = some data) := by
  refine ⟨?_, ?_, ?_, ?_, ?_, ?_, ?_, ?_, ?_⟩
  · intro db cid pid data
    exact ⟨sectionOf_mergeSave_self db cid pid _ data,
           fun k hk => sectionOf_mergeSave_frame db cid pid _ data k hk⟩
  · intro db cid pid data
    exact ⟨sectionOf_mergeSave_self db cid pid _ data,
           fun k hk => sectionOf_mergeSave_frame db cid pid _ data k hk⟩
  · intro db cid pid data
    exact ⟨sectionOf_mergeSave_self db cid pid _ data,
           fun k hk => sectionOf_mergeSave_frame db cid pid _ data k hk⟩
  · intro db cid pid data
    exact ⟨sectionOf_mergeSave_self db cid pid _ data,
           fun k hk => sectionOf_mergeSave_frame db cid pid _ data k hk⟩
  · intro db cid pid data
    exact ⟨sectionOf_mergeSave_self db cid pid _ data,
           fun k hk => sectionOf_mergeSave_frame db cid pid _ data k hk⟩
  · intro db cid pid data
    exact ⟨sectionOf_mergeSave_self db cid pid _ data,
           fun k hk => sectionOf_mergeSave_frame db cid pid _ data k hk⟩
  · intro db cid pid A B
    simp only [Caja.load_cash_flow, Resumenjuego.save_decisions, Caja.save_cash_flow,
               updateDecision_decision_same, Option.getD_some]
    rw [lookupKey_setKey_ne _ _ _ _ (by decide), lookupKey_setKey_self, Option.getD_some]
  · intro db cid pid fields
    exact updateDecision_decision_same db cid pid _
  · intro db cid pid data
    exact updateDecision_decision_same db cid pid _

open Captop in
/-- C1 counterexample: starting from an empty database, saving the
cash_flow_data section for company 1 period 0, then performing the
market-research section write for the same company and period, drops the
cash_flow_data sibling section — refuting the claim that EVERY section write
preserves sibling sections already present. -/
theorem C1_counterexample :
    sectionOf (Caja.save_cash_flow emptyDB 1 0 [("a", .num 1)]) 1 0 "cash_flow_data"
      = some (.obj [("a", .num 1)]) ∧
    sectionOf (Investigacionmercado.ui_save_data
        (Caja.save_cash_flow emptyDB 1 0 [("a", .num 1)]) 1 0 [("m", .num 2)]) 1 0
        "cash_flow_data" = none ∧
    Caja.load_cash_flow (Investigacionmercado.ui_save_data
        (Caja.save_cash_flow emptyDB 1 0 [("a", .num 1)]) 1 0 [("m", .num 2)]) 1 0
      ≠ some (.obj [("a", .num 1)]) := by
  refine ⟨rfl, rfl, ?_⟩
  rw [show Caja.load_cash_flow (Investigacionmercado.ui_save_data
        (Caja.save_cash_flow emptyDB 1 0 [("a", .num 1)]) 1 0 [("m", .num 2)]) 1 0
      = some (.obj []) from rfl]
  simp

open Captop in
/-- C1 witness: the amended theorem instantiated at a concrete database, section
data and sibling key. -/
theorem C1_witness :
    sectionOf (Caja.save_cash_flow emptyDB 2 3 [("x", .num 5)]) 2 3 "cash_flow_data"
      = some (.obj [("x", .num 5)]) ∧
    sectionOf (Caja.save_cash_flow emptyDB 2 3 [("x", .num 5)]) 2 3 "summary_data"
      = sectionOf emptyDB 2 3 "summary_data" := by
  have h := C1_section_isolation_amended
  exact ⟨(h.1 emptyDB 2 3 [("x", .num 5)]).1,
         (h.1 emptyDB 2 3 [("x", .num 5)]).2 "summary_data" (by decide)⟩

open Captop in
/-- C2: the prior-period stock resolver of ventaproyectada.py reads each
stock value from the `summary_data` section of the decision document of the
CURRENT period itself: (1) an absent document resolves to 0.0, (2) an absent
field resolves to 0.0, (3) a value saved into `summary_data` at (company, P)
by resumenjuego1.py is returned by the resolver at the same (company, P), and
(4) the resolution depends only on the decision row of (company, P) itself,
so no other period's document can influence it; the resolver returns values
without producing any new database state. -/
theorem C2_stock_carry_forward :
    (∀ db cid pid key, db.decision cid pid = none →
        Ventaproyectada.resolve_stock_anterior db cid pid key = some 0) ∧
    (∀ db cid pid key payload, db.decision cid pid = some payload →
        lookupKey (Ventaproyectada.get_summary_section payload) key = none →
        Ventaproyectada.resolve_stock_anterior db cid pid key = some 0) ∧
    (∀ db cid pid summary key q, lookupKey summary key = some (.num q) →
        Ventaproyectada.resolve_stock_anterior
          (Resumenjuego.save_decisions db cid pid summary) cid pid key = some q) ∧
    (∀ db db' cid pid key, db.decision cid pid = db'.decision cid pid →
        Ventaproyectada.resolve_stock_anterior db cid pid key
          = Ventaproyectada.resolve_stock_anterior db' cid pid key) := by
  refine ⟨?_, ?_, ?_, ?_⟩
  · intro db cid pid key h
    simp only [Ventaproyectada.resolve_stock_anterior, h]
  · intro db cid pid key payload h hlk
    simp only [Ventaproyectada.resolve_stock_anterior, h, hlk]
  · intro db cid pid summary key q h
    simp only [Ventaproyectada.resolve_stock_anterior, Resumenjuego.save_decisions,
               updateDecision_decision_same, Ventaproyectada.get_summary_section,
               lookupKey_setKey_self, h]
  · intro db db' cid pid key h
    simp only [Ventaproyectada.resolve_stock_anterior, h]

open Captop in
/-- C2 witness: the theorem instantiated on an empty database and on a
database where resumenjuego1.py has saved a summary for company 1, period 2. -/
theorem C2_witness :
    Ventaproyectada.resolve_stock_anterior emptyDB 1 2 "home_Stock_Período_Anterior_Chile"
      = some 0 ∧
    Ventaproyectada.resolve_stock_anterior
        (Resumenjuego.save_decisions emptyDB 1 2 [("home_Stock_Período_Anterior_Chile", .num 7)])
        1 2 "home_Stock_Período_Anterior_Chile" = some 7 := by
  have h := C2_stock_carry_forward
  exact ⟨h.1 emptyDB 1 2 _ rfl,
         h.2.2.1 emptyDB 1 2 [("home_Stock_Período_Anterior_Chile", .num 7)] _ 7 rfl⟩

open Captop in
/-- C3: the opening cash balance computed by caja.py equals the numeric
`activo_circulante_Disponible` field of the BALANCE_SHEET financial statement
stored for the same (company, period) — in particular directly after the
statement store writes such a statement — and resolves to 0.0 when no
BALANCE_SHEET statement exists for that (company, period). -/
theorem C3_opening_balance :
    (∀ db cid pid data q,
        db.statement cid pid "BALANCE_SHEET" = some data →
        lookupKey data "activo_circulante_Disponible" = some (.num q) →
        Caja.get_initial_balance db cid pid = q) ∧
    (∀ db cid pid data q,
        lookupKey data "activo_circulante_Disponible" = some (.num q) →
        Caja.get_initial_balance (saveStatement db cid pid "BALANCE_SHEET" data) cid pid = q) ∧
    (∀ db cid pid, db.statement cid pid "BALANCE_SHEET" = none →
        Caja.get_initial_balance db cid pid = 0) := by
  refine ⟨?_, ?_, ?_⟩
  · intro db cid pid data q h hlk
    simp only [Caja.get_initial_balance, h, hlk, Caja.pyFloatVal, Option.getD_some]
  · intro db cid pid data q hlk
    simp only [Caja.get_initial_balance, saveStatement_same, hlk, Caja.pyFloatVal,
               Option.getD_some]
  · intro db cid pid h
    simp only [Caja.get_initial_balance, h]

open Captop in
/-- C3 witness: opening balance after storing a BALANCE_SHEET with
activo_circulante_Disponible = 1234.5 for company 1, period 3, and on the
empty database. -/
theorem C3_witness :
    Caja.get_initial_balance
        (saveStatement emptyDB 1 3 "BALANCE_SHEET"
          [("activo_circulante_Disponible", .num 1234.5)]) 1 3 = 1234.5 ∧
    Caja.get_initial_balance emptyDB 1 3 = 0 := by
  have h := C3_opening_balance
  exact ⟨h.2.1 emptyDB 1 3 [("activo_circulante_Disponible", .num 1234.5)] 1234.5 rfl,
         h.2.2 emptyDB 1 3 rfl⟩

open Captop in
/-- C4: saving a financial statement is a whole-document replace for its
(company_id, period, type) key: after saving d1 then d2, a load returns
exactly d2, for the shared REPLACE pattern and for its instantiations in
balancefinal.py (BALANCE_FINAL) and controlsistema.py (CONTROL_SISTEMA). -/
theorem C4_statement_replace :
    (∀ db cid pid ty d1 d2,
        loadStatement (saveStatement (saveStatement db cid pid ty d1) cid pid ty d2) cid pid ty
          = some d2) ∧
    (∀ db cid pid d1 d2,
        Balancefinal.load_final_balance
          (Balancefinal.save_final_balance
            (Balancefinal.save_final_balance db cid pid d1) cid pid d2) cid pid = some d2) ∧
    (∀ db cid pid d1 d2,
        Controlsistema.load_control_data
          (Controlsistema.save_control_data
            (Controlsistema.save_control_data db cid pid d1) cid pid d2) cid pid = some d2) := by
  refine ⟨?_, ?_, ?_⟩
  · intro db cid pid ty d1 d2
    simp only [loadStatement, saveStatement_same]
  · intro db cid pid d1 d2
    simp only [Balancefinal.load_final_balance, Balancefinal.save_final_balance,
               loadStatement, saveStatement_same]
  · intro db cid pid d1 d2
    simp only [Controlsistema.load_control_data, Controlsistema.save_control_data,
               loadStatement, saveStatement_same]

open Captop in
/-- C5: round-trip of the financial statement store: saving a statement and
loading the same (company, period, type) returns exactly the saved mapping;
in particular a BALANCE_SHEET with activo_circulante_Disponible = 1234.5. -/
theorem C5_statement_round_trip :
    (∀ db cid pid ty data,
        loadStatement (saveStatement db cid pid ty data) cid pid ty = some data) ∧
    (∀ db cid pid,
        loadStatement
          (saveStatement db cid pid "BALANCE_SHEET"
            [("activo_circulante_Disponible", .num 1234.5)]) cid pid "BALANCE_SHEET"
          = some [("activo_circulante_Disponible", .num 1234.5)]) := by
  refine ⟨?_, ?_⟩
  · intro db cid pid ty data
    simp only [loadStatement, saveStatement_same]
  · intro db cid pid
    simp only [loadStatement, saveStatement_same]

open Captop in
/-- C9: the cash-flow section load distinguishes the two absence cases: it
returns `None` when no decision document exists for (company_id, period) and
the empty mapping when a document exists but has no cash_flow_data section. -/
theorem C9_load_absence_cases :
    (∀ db cid pid, db.decision cid pid = none → Caja.load_cash_flow db cid pid = none) ∧
    (∀ db cid pid payload, db.decision cid pid = some payload →
        lookupKey payload "cash_flow_data" = none →
        Caja.load_cash_flow db cid pid = some (.obj [])) := by
  refine ⟨?_, ?_⟩
  · intro db cid pid h
    simp only [Caja.load_cash_flow, h]
  · intro db cid pid payload h hlk
    simp only [Caja.load_cash_flow, h, hlk, Option.getD_none]

open Captop in
/-- C9 witness: the empty database has no document for (1, 0); after saving
only a summary_data section the document exists but the cash_flow_data
section is absent, and the load returns the empty mapping. -/
theorem C9_witness :
    Caja.load_cash_flow emptyDB 1 0 = none ∧
    Caja.load_cash_flow (Resumenjuego.save_decisions emptyDB 1 0 [("s", .num 3)]) 1 0
      = some (.obj []) := by
  have h := C9_load_absence_cases
  exact ⟨h.1 emptyDB 1 0 rfl,
         h.2 (Resumenjuego.save_decisions emptyDB 1 0 [("s", .num 3)]) 1 0
           [("summary_data", .obj [("s", .num 3)])] rfl rfl⟩

open Captop in
/-- C10: every modelled save writes only the row addressed by its own key:
each decision-document writer leaves every other (company, period) decision
row unchanged and never touches the financial_statement table, and the
financial-statement writer leaves every other (company, period, type)
statement unchanged and never touches the decision table. -/
theorem C10_cross_key_frame :
    (∀ db cid pid data c p, ¬(c = cid ∧ p = pid) →
        (Caja.save_cash_flow db cid pid data).decision c p = db.decision c p) ∧
    (∀ db cid pid data c p, ¬(c = cid ∧ p = pid) →
        (Datosperiodoanterior.save_previous_period_data db cid pid data).decision c p
          = db.decision c p) ∧
    (∀ db cid pid data c p, ¬(c = cid ∧ p = pid) →
        (Resumenjuego.save_decisions db cid pid data).decision c p = db.decision c p) ∧
    (∀ db cid pid data c p, ¬(c = cid ∧ p = pid) →
        (Ventaproyectada.save_decisions_to_db db cid pid data).decision c p = db.decision c p) ∧
    (∀ db cid pid data c p, ¬(c = cid ∧ p = pid) →
        (Prestamo.ui_save_data db cid pid data).decision c p = db.decision c p) ∧
    (∀ db cid pid data c p, ¬(c = cid ∧ p = pid) →
        (Publicidad.ui_save_data db cid pid data).decision c p = db.decision c p) ∧
    (∀ db cid pid data c p, ¬(c = cid ∧ p = pid) →
        (Investigacionmercado.ui_save_data db cid pid data).decision c p = db.decision c p) ∧
    (∀ db cid pid data c p, ¬(c = cid ∧ p = pid) →
        (HomeProfessional.save_decisions db cid pid data).decision c p = db.decision c p) ∧
    (∀ db cid pid data, (Caja.save_cash_flow db cid pid data).statement = db.statement) ∧
    (∀ db cid pid ty data c p t, ¬(c = cid ∧ p = pid ∧ t = ty) →
        (saveStatement db cid pid ty data).statement c p t = db.statement c p t) ∧
    (∀ db cid pid ty data, (saveStatement db cid pid ty data).decision = db.decision) := by
  refine ⟨?_, ?_, ?_, ?_, ?_, ?_, ?_, ?_, ?_, ?_, ?_⟩
  · intro db cid pid data c p h
    exact updateDecision_decision_other db cid pid c p _ h
  · intro db cid pid data c p h
    exact updateDecision_decision_other db cid pid c p _ h
  · intro db cid pid data c p h
    exact updateDecision_decision_other db cid pid c p _ h
  · intro db cid pid data c p h
    exact updateDecision_decision_other db cid pid c p _ h
  · intro db cid pid data c p h
    exact updateDecision_decision_other db cid pid c p _ h
  · intro db cid pid data c p h
    exact updateDecision_decision_other db cid pid c p _ h
  · intro db cid pid data c p h
    exact updateDecision_decision_other db cid pid c p _ h
  · intro db cid pid data c p h
    exact updateDecision_decision_other db cid pid c p _ h
  · intro db cid pid data
    exact updateDecision_statement db cid pid _
  · intro db cid pid ty data c p t h
    exact saveStatement_other db cid pid ty data c p t h
  · intro db cid pid ty data
    exact saveStatement_decision db cid pid ty data

open Captop in
/-- C10 witness: saving a cash-flow section at (1, 0) leaves the decision row
of (2, 5) unchanged, and saving a BALANCE_FINAL statement at (1, 0) leaves the
BALANCE_SHEET statement of (1, 0) unchanged. -/
theorem C10_witness :
    (Caja.save_cash_flow emptyDB 1 0 [("a", .num 1)]).decision 2 5 = emptyDB.decision 2 5 ∧
    (saveStatement emptyDB 1 0 "BALANCE_FINAL" [("f", .num 2)]).statement 1 0 "BALANCE_SHEET"
      = emptyDB.statement 1 0 "BALANCE_SHEET" := by
  have h := C10_cross_key_frame
  exact ⟨h.1 emptyDB 1 0 [("a", .num 1)] 2 5 (by decide),
         h.2.2.2.2.2.2.2.2.2.1 emptyDB 1 0 "BALANCE_FINAL" [("f", .num 2)] 1 0
           "BALANCE_SHEET" (by decide)⟩

namespace Captop

theorem find?_map_increment (rows : List Company) (cid : Nat) :
    (rows.map (fun r => if r.id == cid
                        then { r with current_period := r.current_period + 1 }
                        else r)).find? (fun r => r.id == cid)
      = (rows.find? (fun r => r.id == cid)).map
          (fun r => { r with current_period := r.current_period + 1 }) := by
  induction rows with
  | nil => rfl
  | cons hd tl ih =>
    by_cases h : hd.id = cid
    · subst h
      simp [List.find?_cons, -List.find?_map]
    · simp only [beq_iff_eq] at ih ⊢
      simp [List.find?_cons, h, ih, -List.find?_map]

theorem currentPeriodOf_increment (t : CompanyTable) (cid : Nat) :
    currentPeriodOf (HomeProfessional.increment_period t cid) cid
      = (currentPeriodOf t cid).map (fun n => n + 1) := by
  simp only [currentPeriodOf, findCompany, HomeProfessional.increment_period]
  rw [find?_map_increment]
  cases (t.rows.find? (fun r => r.id == cid)) <;> rfl

theorem findCompany_append_right (t : CompanyTable) (cid : Nat) (r : Company)
    (rows' : List Company) (h : findCompany t cid = some r) :
    (t.rows ++ rows').find? (fun x => x.id == cid) = some r := by
  rw [List.find?_append]
  simp only [findCompany] at h
  rw [h]
  rfl

end Captop

namespace Captop

theorem currentPeriodOf_append (t : CompanyTable) (rows' : List Company) (nid' cid n : Nat)
    (h : currentPeriodOf t cid = some n) :
    currentPeriodOf ⟨t.rows ++ rows', nid'⟩ cid = some n := by
  simp only [currentPeriodOf, findCompany] at h ⊢
  cases hf : List.find? (fun r => r.id == cid) t.rows with
  | none => rw [hf] at h; simp at h
  | some r =>
    rw [hf] at h
    rw [List.find?_append, hf]
    exact h

end Captop

namespace Captop

theorem find?_map_increment_two (rows : List Company) (cid cid' : Nat) :
    (rows.map (fun r => if r.id == cid'
                        then { r with current_period := r.current_period + 1 }
                        else r)).find? (fun r => r.id == cid)
      = (rows.find? (fun r => r.id == cid)).map
          (fun r => if r.id == cid'
                    then { r with current_period := r.current_period + 1 }
                    else r) := by
  induction rows with
  | nil => rfl
  | cons hd tl ih =>
    by_cases h : hd.id = cid
    · subst h
      simp [List.find?_cons, apply_ite Company.id, -List.find?_map]
    · simp only [beq_iff_eq] at ih ⊢
      simp [List.find?_cons, apply_ite Company.id, h, ih, -List.find?_map]

end Captop

open Captop in
/-- C6: after increment_period(company_id) the company's current_period equals
its prior value plus 1, and across every modelled core operation (both
create-company paths, increment_period, every decision-document save and
every financial-statement save) an existing company's current_period never
decreases. -/
theorem C6_period_monotonicity :
    (∀ t cid n, currentPeriodOf t cid = some n →
        currentPeriodOf (HomeProfessional.increment_period t cid) cid = some (n + 1)) ∧
    (∀ s op cid n, currentPeriodOf s.companies cid = some n →
        ∃ m, currentPeriodOf (stepOp s op).companies cid = some m ∧ n ≤ m) := by
  constructor
  · intro t cid n h
    rw [currentPeriodOf_increment, h]
    rfl
  · intro s op cid n h
    cases op with
    | main_create_company name =>
      refine ⟨n, ?_, le_refl n⟩
      simp only [stepOp, Main1.create_company]
      cases hv : Main1.validate_company_name name with
      | some e => exact h
      | none =>
        simp only [Main1.model_create_company]
        by_cases hd : s.companies.rows.any (fun r => r.name == pyStrip name)
        · rw [if_pos hd]
          exact h
        · rw [if_neg hd]
          exact currentPeriodOf_append s.companies _ _ cid n h
    | hp_create_company name =>
      refine ⟨n, ?_, le_refl n⟩
      simp only [stepOp, HomeProfessional.create_company]
      by_cases hd : s.companies.rows.any (fun r => r.name == name)
      · rw [if_pos hd]
        exact h
      · rw [if_neg hd]
        exact currentPeriodOf_append s.companies _ _ cid n h
    | hp_increment_period cid' =>
      simp only [currentPeriodOf, findCompany, Option.map_eq_some'] at h
      obtain ⟨r, hf, hn⟩ := h
      refine ⟨if r.id == cid' then n + 1 else n, ?_, ?_⟩
      · simp only [stepOp, currentPeriodOf, findCompany, HomeProfessional.increment_period]
        rw [find?_map_increment_two, hf]
        simp only [Option.map_some']
        by_cases hc : (r.id == cid') = true
        · rw [if_pos hc, if_pos hc]
          simp [hn]
        · rw [if_neg hc, if_neg hc]
          simp [hn]
      · by_cases hc : (r.id == cid') = true
        · rw [if_pos hc]
          exact Nat.le_succ n
        · rw [if_neg hc]
    | hp_save_decisions cid' pid data => exact ⟨n, h, le_refl n⟩
    | caja_save_cash_flow cid' pid data => exact ⟨n, h, le_refl n⟩
    | datos_save_previous cid' pid data => exact ⟨n, h, le_refl n⟩
    | resumen_save_decisions cid' pid data => exact ⟨n, h, le_refl n⟩
    | vp_save_projected cid' pid data => exact ⟨n, h, le_refl n⟩
    | prestamo_save cid' pid data => exact ⟨n, h, le_refl n⟩
    | publicidad_save cid' pid data => exact ⟨n, h, le_refl n⟩
    | mercado_save cid' pid data => exact ⟨n, h, le_refl n⟩
    | save_statement cid' pid ty data => exact ⟨n, h, le_refl n⟩

open Captop in
/-- C6 witness: a table with one company (id 1) at period 4; incrementing
yields period 5, and a step of the increment operation does not decrease it. -/
theorem C6_witness :
    currentPeriodOf
        (HomeProfessional.increment_period ⟨[⟨1, "Acme", 100000, 4, 950⟩], 2⟩ 1) 1
      = some 5 ∧
    ∃ m, currentPeriodOf
        (stepOp ⟨⟨[⟨1, "Acme", 100000, 4, 950⟩], 2⟩, emptyDB⟩
          (.hp_increment_period 1)).companies 1 = some m ∧ 4 ≤ m := by
  have h := C6_period_monotonicity
  exact ⟨h.1 ⟨[⟨1, "Acme", 100000, 4, 950⟩], 2⟩ 1 4 rfl,
         h.2 ⟨⟨[⟨1, "Acme", 100000, 4, 950⟩], 2⟩, emptyDB⟩ (.hp_increment_period 1) 1 4 rfl⟩

namespace Captop

theorem validate_some_iff (name : String) :
    (∃ e, Main1.validate_company_name name = some e) ↔
      ((pyStrip name).length = 0 ∨ (pyStrip name).length < 3 ∨ 50 < (pyStrip name).length ∨
        ¬(((pyStrip name).data.all (fun c => pyIsAlnum c || pyIsSpace c)) = true)) := by
  simp only [Main1.validate_company_name]
  split_ifs with h1 h2 h3 h4 <;> simp_all

theorem create_isInvalid_iff (t : CompanyTable) (name : String) :
    (Main1.create_company t name).1.isInvalid = true ↔
      (∃ e, Main1.validate_company_name name = some e) := by
  cases hv : Main1.validate_company_name name with
  | some e => simp [Main1.create_company, hv, Main1.CreateResult.isInvalid]
  | none =>
    simp only [Main1.create_company, hv, Main1.model_create_company]
    split <;> simp [Main1.CreateResult.isInvalid]

end Captop

open Captop in
/-- C7: create_company fails with a validation error (inserting nothing)
exactly when the stripped name is empty, shorter than 3 characters, longer
than 50, or contains a character that is neither alphanumeric nor whitespace;
on a valid fresh name it reports success and inserts a row with the fixed
starting cash balance 100000.0 and default exchange rate 950.0; calling it
twice with the same valid fresh name yields success then a duplicate-name
error. -/
theorem C7_create_company :
    (∀ t name,
        ((Main1.create_company t name).1.isInvalid = true ↔
          ((pyStrip name).length = 0 ∨ (pyStrip name).length < 3 ∨
            50 < (pyStrip name).length ∨
            ¬(((pyStrip name).data.all (fun c => pyIsAlnum c || pyIsSpace c)) = true))) ∧
        ((Main1.create_company t name).1.isInvalid = true →
          (Main1.create_company t name).2 = t)) ∧
    (∀ t name, Main1.validate_company_name name = none →
        (t.rows.any (fun r => r.name == pyStrip name)) = false →
        (Main1.create_company t name).1 = .ok t.next_id ∧
        (Main1.create_company t name).2.rows
          = t.rows ++ [⟨t.next_id, pyStrip name, 100000, 0, 950⟩] ∧
        (Main1.create_company ((Main1.create_company t name).2) name).1 = .duplicate) := by
  constructor
  · intro t name
    constructor
    · rw [create_isInvalid_iff, validate_some_iff]
    · intro hinv
      rw [create_isInvalid_iff] at hinv
      obtain ⟨e, he⟩ := hinv
      simp [Main1.create_company, he]
  · intro t name hv hfresh
    have hstep : Main1.create_company t name
        = (.ok t.next_id, ⟨t.rows ++ [⟨t.next_id, pyStrip name, 100000, 0, 950⟩], t.next_id + 1⟩) := by
      simp only [Main1.create_company, hv, Main1.model_create_company, hfresh]
      rw [if_neg (by simp [hfresh])]
    refine ⟨by rw [hstep], by rw [hstep], ?_⟩
    rw [hstep]
    simp only [Main1.create_company, hv, Main1.model_create_company]
    rw [if_pos ?_]
    simp only [List.any_append, List.any_cons, List.any_nil, Bool.or_false]
    simp

open Captop in
/-- C7 witness: the theorem instantiated at the empty company table and the
name "Acme": a first call succeeds inserting the seeded row, a second call
reports a duplicate name. -/
theorem C7_witness :
    (Main1.create_company emptyCompanyTable "Acme").1 = .ok 1 ∧
    (Main1.create_company emptyCompanyTable "Acme").2.rows
      = [⟨1, "Acme", 100000, 0, 950⟩] ∧
    (Main1.create_company ((Main1.create_company emptyCompanyTable "Acme").2) "Acme").1
      = .duplicate := by
  have h := (C7_create_company.2 emptyCompanyTable "Acme") (by decide) (by decide)
  exact ⟨h.1, h.2.1, h.2.2⟩

open Captop in
/-- C8 (amended): on the cash-flow save path (caja.py lines 447-480) every
entry whose raw string parses as a number is stored as that number and every
non-empty non-parsing entry is kept as text, so saving x = "12.5" and
y = "n/a" and reloading yields x as the number 12.5 and y as the text "n/a";
on the previous-period-data save path (datosperiodoanterior.py lines 288-296
and 311-319) a parsing entry is stored as a number but a non-parsing or empty
entry is stored as Python None (JSON null), not as text.  Either way callers
cannot assume every value in a section is numeric. -/
theorem C8_numeric_coercion_amended :
    (∀ db cid pid,
        Caja.load_cash_flow
            (Caja.ui_save_cash_flow db cid pid [("x", "12.5"), ("y", "n/a")] []) cid pid
          = some (.obj [("x", .num 12.5), ("y", .str "n/a")])) ∧
    (∀ s q, pyFloatString s = some q → Caja.coerceEntryValue s = .num q) ∧
    (∀ s, s ≠ "" → pyFloatString s = none → Caja.coerceEntryValue s = .str s) ∧
    (∀ db cid pid,
        Datosperiodoanterior.load_previous_period_data
            (Datosperiodoanterior.ui_save_data db cid pid [("x", "12.5"), ("y", "n/a")]) cid pid
          = some (some (.obj [("x", .num 12.5), ("y", .null)]))) := by
  have hnum : (12.5 : ℚ) = mkRat 125 10 := by
    rw [Rat.mkRat_eq_div]
    norm_num
  refine ⟨?_, ?_, ?_, ?_⟩
  · intro db cid pid
    rw [hnum]
    simp only [Caja.ui_save_cash_flow, Caja.save_cash_flow, Caja.load_cash_flow,
               updateDecision_decision_same, Option.getD_some, lookupKey_setKey_self]
    rfl
  · intro s q h
    have hs : ¬(s = "") := by
      intro he
      subst he
      exact Option.noConfusion (h.symm.trans rfl)
    simp only [Caja.coerceEntryValue, if_neg hs, h]
  · intro s hs h
    simp only [Caja.coerceEntryValue, if_neg hs, h]
  · intro db cid pid
    rw [hnum]
    simp only [Datosperiodoanterior.ui_save_data,
               Datosperiodoanterior.save_previous_period_data,
               Datosperiodoanterior.load_previous_period_data,
               updateDecision_decision_same, lookupKey_setKey_self]
    rfl

open Captop in
/-- C8 counterexample: through the previous-period-data save path, the raw
entry "n/a" — which does not parse as a number — is stored as JSON null, not
as text, refuting the claim that every non-parsing value is kept as text on
every section save. -/
theorem C8_counterexample :
    Datosperiodoanterior.load_previous_period_data
        (Datosperiodoanterior.ui_save_data emptyDB 1 0 [("y", "n/a")]) 1 0
      = some (some (.obj [("y", .null)])) ∧
    JVal.null ≠ JVal.str "n/a" := by
  exact ⟨rfl, by simp⟩

open Captop in
/-- C8 witness: the coercion conjuncts of the amended theorem applied to the
concrete raw strings "12.5" and "n/a". -/
theorem C8_witness :
    Caja.coerceEntryValue "12.5" = .num (mkRat 125 10) ∧
    Caja.coerceEntryValue "n/a" = .str "n/a" := by
  have h := C8_numeric_coercion_amended
  exact ⟨h.2.1 "12.5" (mkRat 125 10) rfl, h.2.2.1 "n/a" (by decide) rfl⟩
